import Mathlib

/-!
Shallow embedding of `src/generate_model.py` (particle-morph): an image-to-3D
CLI that loads an image, strips its background with a segmentation model, runs
the Hunyuan3D pipeline and exports a GLB mesh.  External library calls (model
loading, HTTP/file image loading, directory creation, inference, saving) are
modelled as fallible oracles supplied by an `Env`; the script's own logic —
label validation, filename bookkeeping, per-step error wrapping, exit codes —
is translated directly from the source.
-/

deriving instance DecidableEq for Except

namespace ParticleMorph

/-- An exception raised by a Python-level call, with its message (opaque). -/
structure PyErr where
  msg : String
deriving DecidableEq, Repr

/-- A PIL image, abstracted to the attributes the script observes:
pixel size (`image.size = (width, height)`) and mode string. -/
structure PILImage where
  width : Nat
  height : Nat
  mode : String
deriving DecidableEq, Repr

/-- Opaque handle to the `Hunyuan3DDiTFlowMatchingPipeline` object. -/
structure Pipeline where
  id : Nat
deriving DecidableEq, Repr

/-- Opaque handle to a trimesh mesh object returned by the pipeline. -/
structure Mesh where
  id : Nat
deriving DecidableEq, Repr

/-! ### Label validation (`main`, line 237)

`if not args.label.replace("_", "").isalnum()`. -/

/-- Python `str.isalnum` on one character, restricted to the ASCII range that
the claims exercise (Python's version also accepts non-ASCII Unicode
letters/digits; the underscore is not alphanumeric either way). -/
def pyCharIsAlnum (c : Char) : Bool := c.isAlphanum

/-- Python `str.isalnum()`: true iff the string is nonempty and every
character is alphanumeric. -/
def pyStrIsAlnum (s : List Char) : Bool := !s.isEmpty && s.all pyCharIsAlnum

/-- Python `str.replace("_", "")`: removes every underscore. -/
def pyReplaceUnderscore (s : List Char) : List Char := s.filter (fun c => c ≠ '_')

/-- The label check of `main` (line 237):
`args.label.replace("_", "").isalnum()`. -/
def labelValid (label : List Char) : Bool := pyStrIsAlnum (pyReplaceUnderscore label)

/-! ### PIL primitives used by `remove_background` and `load_image` -/

/-- `PIL.ImageMode` base mode of a mode string (the modes with an `L` base;
everything else, including `P` and `RGB`, has base `RGB`). -/
def getmodebase (m : String) : String :=
  if m = "1" ∨ m = "L" ∨ m = "LA" ∨ m = "I" ∨ m = "F" then "L" else "RGB"

/-- Mode of an image after `Image.putalpha`: a mode that already carries an
alpha band is kept, otherwise the image is converted in place to its base
mode plus an alpha band (`RGB` becomes `RGBA`). -/
def putalphaMode (m : String) : String :=
  if m = "LA" ∨ m = "PA" ∨ m = "RGBA" then m else getmodebase m ++ "A"

/-- `image.putalpha(mask)` with an image mask: stores `mask` as the alpha
band, mutating the image's mode; the C layer raises `ValueError` when the
band sizes do not match.  Size is unchanged. -/
def putalpha (image mask : PILImage) : Except PyErr PILImage :=
  if mask.width = image.width ∧ mask.height = image.height then
    .ok { image with mode := putalphaMode image.mode }
  else
    .error ⟨"ValueError: images do not match"⟩

/-- `pred_pil.resize(image_size)`: same mode, new pixel size. -/
def pilResize (img : PILImage) (w h : Nat) : PILImage :=
  { img with width := w, height := h }

/-- `input_image.convert("RGB")`. -/
def pilConvertRGB (img : PILImage) : PILImage := { img with mode := "RGB" }

/-! ### `remove_background` (lines 69–95)

The BiRefNet stage — `load_birefnet_model()`, `transform_image(image)`,
`model(input_images)[-1].sigmoid()`, `ToPILImage()(pred)` — is one opaque
external computation producing `pred_pil` (or raising); the script then
resizes that prediction back to `image.size` and applies it as alpha. -/

/-- `remove_background(image)`: run the segmentation model to get `pred_pil`
(the `infer` oracle), resize the mask to the original `image.size`, and apply
it with `putalpha`, returning the same image.  Any exception propagates to
the caller (which wraps the whole call). -/
def remove_background (infer : PILImage → Except PyErr PILImage)
    (image : PILImage) : Except PyErr PILImage :=
  match infer image with
  | .error e => .error e
  | .ok pred_pil =>
      let mask := pilResize pred_pil image.width image.height
      putalpha image mask

/-- Heap-passing rendering of `remove_background`, making object identity
explicit: `image.putalpha(mask)` mutates the image object in place and
`return image` returns the very same object, so the update happens at the
caller's reference `r` and all other references are untouched. -/
def remove_background_heap (infer : PILImage → Except PyErr PILImage)
    (heap : Nat → PILImage) (r : Nat) : Except PyErr (Nat × (Nat → PILImage)) :=
  match remove_background infer (heap r) with
  | .error e => .error e
  | .ok out => .ok (r, fun x => if x = r then out else heap x)

/-! ### `load_image` (lines 98–113) -/

/-- Oracles for the external calls of `load_image`: fetching the bytes of a
URL and opening them (`requests.get` + `Image.open(BytesIO(...))`), opening a
local file (`Image.open(path)`), and `ImageOps.exif_transpose`. -/
structure ImageSource where
  httpGet : String → Except PyErr PILImage
  fileOpen : String → Except PyErr PILImage
  exifTranspose : PILImage → PILImage

/-- Python `str.startswith`, on the character lists of the two strings. -/
def pyStartsWith (s pre : String) : Bool := pre.data.isPrefixOf s.data

/-- `load_image(image_path)`: URL or file open, EXIF orientation transpose,
then conversion to RGB when the mode differs. -/
def load_image (src : ImageSource) (image_path : String) : Except PyErr PILImage :=
  match (if pyStartsWith image_path "http://" || pyStartsWith image_path "https://" then
           src.httpGet image_path
         else
           src.fileOpen image_path) with
  | .error e => .error e
  | .ok opened =>
      let input_image := src.exifTranspose opened
      .ok (if input_image.mode ≠ "RGB" then pilConvertRGB input_image else input_image)

/-! ### Filenames and paths (lines 156–167) -/

/-- `datetime.now()` truncated to what `%Y%m%d` reads: a calendar date. -/
structure Date where
  year : Nat
  month : Nat
  day : Nat
deriving DecidableEq, Repr

/-- The decimal digit character of `n % 10`. -/
def digitChar (n : Nat) : Char := Char.ofNat (48 + n % 10)

/-- `datetime.strftime("%Y%m%d")`: fixed-width zero-padded decimal fields —
four digits of the year, two of the month, two of the day, no time
component (years in `datetime` are 1–9999, months 1–12, days 1–31). -/
def strftimeYmd (d : Date) : String :=
  String.mk [digitChar (d.year / 1000), digitChar (d.year / 100),
             digitChar (d.year / 10), digitChar d.year,
             digitChar (d.month / 10), digitChar d.month,
             digitChar (d.day / 10), digitChar d.day]

/-- `pathlib`'s `/` on POSIX: join with a slash. -/
def pathJoin (a b : String) : String := a ++ "/" ++ b

/-- `removal_path = Path(output_dir) / "removal" / f"<ts>_<label>_no_bg.png"`. -/
def removalPath (today : Date) (label output_dir : String) : String :=
  pathJoin (pathJoin output_dir "removal") (strftimeYmd today ++ "_" ++ label ++ "_no_bg.png")

/-- `mesh_path = Path(output_dir) / "mesh" / f"<ts>_<label>.glb"`. -/
def meshPath (today : Date) (label output_dir : String) : String :=
  pathJoin (pathJoin output_dir "mesh") (strftimeYmd today ++ "_" ++ label ++ ".glb")

/-! ### `generate_3d_model` (lines 116–208) -/

/-- The externally visible steps of `generate_3d_model`, in source order. -/
inductive Step where
  | loadModel
  | loadImg
  | mkdirRemoval
  | mkdirMesh
  | removeBg
  | saveImg
  | genMesh
  | saveMesh
deriving DecidableEq, Repr

/-- The steps in the order the source attempts them. -/
def stepOrder : List Step :=
  [Step.loadModel, Step.loadImg, Step.mkdirRemoval, Step.mkdirMesh,
   Step.removeBg, Step.saveImg, Step.genMesh, Step.saveMesh]

/-- Outcomes of every external call one invocation can make.  Each field
either returns a value or raises (`Except.error`). -/
structure Env where
  /-- `Hunyuan3DDiTFlowMatchingPipeline.from_pretrained(...)` (lines 132–137). -/
  fromPretrained : Except PyErr Pipeline
  /-- The oracles behind `load_image` (line 149). -/
  src : ImageSource
  /-- `removal_dir.mkdir(parents=True, exist_ok=True)` (line 158). -/
  mkdirRemoval : Except PyErr Unit
  /-- `mesh_dir.mkdir(parents=True, exist_ok=True)` (line 159). -/
  mkdirMesh : Except PyErr Unit
  /-- `datetime.now()` (line 162). -/
  today : Date
  /-- The BiRefNet model load + inference inside `remove_background` (line 172). -/
  infer : PILImage → Except PyErr PILImage
  /-- `input_image.save(removal_path)` (line 181). -/
  saveImage : PILImage → String → Except PyErr Unit
  /-- `pipeline_shapegen(image=input_image)[0]` (line 190). -/
  runPipeline : Pipeline → PILImage → Except PyErr Mesh
  /-- `mesh.export(str(mesh_path))` (line 199). -/
  exportMesh : Mesh → String → Except PyErr Unit

/-- Observable result of one invocation of `generate_3d_model`:
the returned value (`Except.error e` meaning the exception `e` escaped the
function), the steps attempted in order, and the files written in order. -/
structure RunOut where
  result : Except PyErr Bool
  trace : List Step
  files : List String
deriving DecidableEq, Repr

/-- `generate_3d_model(image_path, label, output_dir)` (lines 116–208):
straight-line orchestration.  Model load, image load, background removal,
image save, mesh generation and mesh export are each wrapped in their own
`try/except` that logs and returns `False`; the two `mkdir` calls
(lines 158–159) are not wrapped, so their exceptions propagate. -/
def generate_3d_model (env : Env) (image_path label output_dir : String) : RunOut :=
  match env.fromPretrained with
  | .error _ => ⟨.ok false, [Step.loadModel], []⟩
  | .ok pipeline_shapegen =>
    match load_image env.src image_path with
    | .error _ => ⟨.ok false, [Step.loadModel, Step.loadImg], []⟩
    | .ok input_image =>
      match env.mkdirRemoval with
      | .error e => ⟨.error e, [Step.loadModel, Step.loadImg, Step.mkdirRemoval], []⟩
      | .ok _ =>
        match env.mkdirMesh with
        | .error e =>
            ⟨.error e,
             [Step.loadModel, Step.loadImg, Step.mkdirRemoval, Step.mkdirMesh], []⟩
        | .ok _ =>
          let removal_path := removalPath env.today label output_dir
          let mesh_path := meshPath env.today label output_dir
          match remove_background env.infer input_image with
          | .error _ =>
              ⟨.ok false,
               [Step.loadModel, Step.loadImg, Step.mkdirRemoval, Step.mkdirMesh,
                Step.removeBg], []⟩
          | .ok bg_image =>
            match env.saveImage bg_image removal_path with
            | .error _ =>
                ⟨.ok false,
                 [Step.loadModel, Step.loadImg, Step.mkdirRemoval, Step.mkdirMesh,
                  Step.removeBg, Step.saveImg], []⟩
            | .ok _ =>
              match env.runPipeline pipeline_shapegen bg_image with
              | .error _ =>
                  ⟨.ok false,
                   [Step.loadModel, Step.loadImg, Step.mkdirRemoval, Step.mkdirMesh,
                    Step.removeBg, Step.saveImg, Step.genMesh], [removal_path]⟩
              | .ok mesh =>
                match env.exportMesh mesh mesh_path with
                | .error _ =>
                    ⟨.ok false, stepOrder, [removal_path]⟩
                | .ok _ =>
                    ⟨.ok true, stepOrder, [removal_path, mesh_path]⟩

/-! ### `main` (lines 211–242) -/

/-- How the process terminates: `sys.exit(code)`, or an exception that
escaped `main` (CPython then prints a traceback and exits with status 1). -/
inductive ExitOutcome where
  | exit (code : Nat)
  | uncaught (e : PyErr)
deriving DecidableEq, Repr

/-- The process exit status an `ExitOutcome` produces (CPython terminates
with status 1 on an unhandled exception). -/
def exitCode : ExitOutcome → Nat
  | .exit c => c
  | .uncaught _ => 1

/-- Observable result of `main`: the termination outcome and the pipeline
steps that ran. -/
structure MainOut where
  outcome : ExitOutcome
  trace : List Step
deriving DecidableEq, Repr

/-- `argparse`: `--output-dir` defaults to `"outputs"` when not given. -/
def parseOutputDir : Option String → String
  | some s => s
  | none => "outputs"

/-- `main()` (lines 211–242): validate the label — on failure print and
`sys.exit(1)` before any pipeline work — otherwise run `generate_3d_model`
and exit 0 on `True`, 1 on `False`. -/
def main (env : Env) (image_path label : String) (output_dir_arg : Option String) : MainOut :=
  let output_dir := parseOutputDir output_dir_arg
  if labelValid label.data then
    let run := generate_3d_model env image_path label output_dir
    match run.result with
    | .ok true => ⟨.exit 0, run.trace⟩
    | .ok false => ⟨.exit 1, run.trace⟩
    | .error e => ⟨.uncaught e, run.trace⟩
  else
    ⟨.exit 1, []⟩

/-! ### Concrete environments and helper lemmas -/

/-- A concrete RGB image used to instantiate the environment. -/
def rawImg : PILImage := ⟨640, 480, "RGB"⟩

/-- A concrete environment in which every external call succeeds. -/
def envAllOk : Env where
  fromPretrained := .ok ⟨0⟩
  src := { httpGet := fun _ => .ok rawImg, fileOpen := fun _ => .ok rawImg,
           exifTranspose := fun i => i }
  mkdirRemoval := .ok ()
  mkdirMesh := .ok ()
  today := ⟨2026, 10, 12⟩
  infer := fun _ => .ok ⟨1024, 1024, "L"⟩
  saveImage := fun _ _ => .ok ()
  runPipeline := fun _ _ => .ok ⟨0⟩
  exportMesh := fun _ _ => .ok ()

/-- As `envAllOk`, except that creating the removal directory raises
(e.g. a `PermissionError` from the filesystem). -/
def envMkdirFails : Env :=
  { envAllOk with mkdirRemoval := .error ⟨"PermissionError"⟩ }

/-- As `envAllOk`, except that `mesh.export` raises after everything else
succeeded (so the background-removed PNG is already on disk). -/
def envExportFails : Env :=
  { envAllOk with exportMesh := fun _ _ => .error ⟨"OSError: disk full"⟩ }

/-- Every character `digitChar` produces is a decimal digit. -/
theorem digitChar_isDigit (n : Nat) : (digitChar n).isDigit = true := by
  unfold digitChar
  have h : n % 10 = 0 ∨ n % 10 = 1 ∨ n % 10 = 2 ∨ n % 10 = 3 ∨ n % 10 = 4 ∨
      n % 10 = 5 ∨ n % 10 = 6 ∨ n % 10 = 7 ∨ n % 10 = 8 ∨ n % 10 = 9 := by omega
  rcases h with h | h | h | h | h | h | h | h | h | h <;> rw [h] <;> decide

/-- Exhaustive characterization of one invocation of `generate_3d_model`:
exactly one of the nine stopping points is reached, and the returned value,
step trace and written files are determined by which external call fails
first. -/
theorem runCases (env : Env) (p l d : String) :
    (∃ e, env.fromPretrained = Except.error e ∧
      generate_3d_model env p l d = ⟨Except.ok false, [Step.loadModel], []⟩)
  ∨ (∃ pl e, env.fromPretrained = Except.ok pl ∧
      load_image env.src p = Except.error e ∧
      generate_3d_model env p l d = ⟨Except.ok false, [Step.loadModel, Step.loadImg], []⟩)
  ∨ (∃ pl img e, env.fromPretrained = Except.ok pl ∧
      load_image env.src p = Except.ok img ∧
      env.mkdirRemoval = Except.error e ∧
      generate_3d_model env p l d =
        ⟨Except.error e, [Step.loadModel, Step.loadImg, Step.mkdirRemoval], []⟩)
  ∨ (∃ pl img e, env.fromPretrained = Except.ok pl ∧
      load_image env.src p = Except.ok img ∧
      env.mkdirRemoval = Except.ok () ∧
      env.mkdirMesh = Except.error e ∧
      generate_3d_model env p l d =
        ⟨Except.error e,
         [Step.loadModel, Step.loadImg, Step.mkdirRemoval, Step.mkdirMesh], []⟩)
  ∨ (∃ pl img e, env.fromPretrained = Except.ok pl ∧
      load_image env.src p = Except.ok img ∧
      env.mkdirRemoval = Except.ok () ∧
      env.mkdirMesh = Except.ok () ∧
      remove_background env.infer img = Except.error e ∧
      generate_3d_model env p l d =
        ⟨Except.ok false,
         [Step.loadModel, Step.loadImg, Step.mkdirRemoval, Step.mkdirMesh,
          Step.removeBg], []⟩)
  ∨ (∃ pl img bg e, env.fromPretrained = Except.ok pl ∧
      load_image env.src p = Except.ok img ∧
      env.mkdirRemoval = Except.ok () ∧
      env.mkdirMesh = Except.ok () ∧
      remove_background env.infer img = Except.ok bg ∧
      env.saveImage bg (removalPath env.today l d) = Except.error e ∧
      generate_3d_model env p l d =
        ⟨Except.ok false,
         [Step.loadModel, Step.loadImg, Step.mkdirRemoval, Step.mkdirMesh,
          Step.removeBg, Step.saveImg], []⟩)
  ∨ (∃ pl img bg e, env.fromPretrained = Except.ok pl ∧
      load_image env.src p = Except.ok img ∧
      env.mkdirRemoval = Except.ok () ∧
      env.mkdirMesh = Except.ok () ∧
      remove_background env.infer img = Except.ok bg ∧
      env.saveImage bg (removalPath env.today l d) = Except.ok () ∧
      env.runPipeline pl bg = Except.error e ∧
      generate_3d_model env p l d =
        ⟨Except.ok false,
         [Step.loadModel, Step.loadImg, Step.mkdirRemoval, Step.mkdirMesh,
          Step.removeBg, Step.saveImg, Step.genMesh], [removalPath env.today l d]⟩)
  ∨ (∃ pl img bg mesh e, env.fromPretrained = Except.ok pl ∧
      load_image env.src p = Except.ok img ∧
      env.mkdirRemoval = Except.ok () ∧
      env.mkdirMesh = Except.ok () ∧
      remove_background env.infer img = Except.ok bg ∧
      env.saveImage bg (removalPath env.today l d) = Except.ok () ∧
      env.runPipeline pl bg = Except.ok mesh ∧
      env.exportMesh mesh (meshPath env.today l d) = Except.error e ∧
      generate_3d_model env p l d =
        ⟨Except.ok false, stepOrder, [removalPath env.today l d]⟩)
  ∨ (∃ pl img bg mesh, env.fromPretrained = Except.ok pl ∧
      load_image env.src p = Except.ok img ∧
      env.mkdirRemoval = Except.ok () ∧
      env.mkdirMesh = Except.ok () ∧
      remove_background env.infer img = Except.ok bg ∧
      env.saveImage bg (removalPath env.today l d) = Except.ok () ∧
      env.runPipeline pl bg = Except.ok mesh ∧
      env.exportMesh mesh (meshPath env.today l d) = Except.ok () ∧
      generate_3d_model env p l d =
        ⟨Except.ok true, stepOrder, [removalPath env.today l d, meshPath env.today l d]⟩) := by
  rcases hfp : env.fromPretrained with e | pl
  · exact Or.inl ⟨e, rfl, by simp [generate_3d_model, hfp]⟩
  · rcases hli : load_image env.src p with e | img
    · exact Or.inr (Or.inl ⟨pl, e, rfl, rfl, by simp [generate_3d_model, hfp, hli]⟩)
    · rcases hmr : env.mkdirRemoval with e | u
      · exact Or.inr (Or.inr (Or.inl ⟨pl, img, e, rfl, rfl, rfl,
          by simp [generate_3d_model, hfp, hli, hmr]⟩))
      · rcases hmm : env.mkdirMesh with e | u2
        · exact Or.inr (Or.inr (Or.inr (Or.inl ⟨pl, img, e, rfl, rfl, rfl, rfl,
            by simp [generate_3d_model, hfp, hli, hmr, hmm]⟩)))
        · rcases hrb : remove_background env.infer img with e | bg
          · exact Or.inr (Or.inr (Or.inr (Or.inr (Or.inl
              ⟨pl, img, e, rfl, rfl, rfl, rfl, hrb,
               by simp [generate_3d_model, hfp, hli, hmr, hmm, hrb]⟩))))
          · rcases hsv : env.saveImage bg (removalPath env.today l d) with e | u3
            · exact Or.inr (Or.inr (Or.inr (Or.inr (Or.inr (Or.inl
                ⟨pl, img, bg, e, rfl, rfl, rfl, rfl, hrb, hsv,
                 by simp [generate_3d_model, hfp, hli, hmr, hmm, hrb, hsv]⟩)))))
            · rcases hgp : env.runPipeline pl bg with e | mesh
              · exact Or.inr (Or.inr (Or.inr (Or.inr (Or.inr (Or.inr (Or.inl
                  ⟨pl, img, bg, e, rfl, rfl, rfl, rfl, hrb, hsv, hgp,
                   by simp [generate_3d_model, hfp, hli, hmr, hmm, hrb, hsv, hgp]⟩))))))
              · rcases hex : env.exportMesh mesh (meshPath env.today l d) with e | u4
                · exact Or.inr (Or.inr (Or.inr (Or.inr (Or.inr (Or.inr (Or.inr (Or.inl
                    ⟨pl, img, bg, mesh, e, rfl, rfl, rfl, rfl, hrb, hsv, hgp, hex,
                     by simp [generate_3d_model, hfp, hli, hmr, hmm, hrb, hsv, hgp, hex]⟩)))))))
                · exact Or.inr (Or.inr (Or.inr (Or.inr (Or.inr (Or.inr (Or.inr (Or.inr
                    ⟨pl, img, bg, mesh, rfl, rfl, rfl, rfl, hrb, hsv, hgp, hex,
                     by simp [generate_3d_model, hfp, hli, hmr, hmm, hrb, hsv, hgp, hex]⟩)))))))

/-- Characterization of the label check: it accepts exactly the labels whose
characters are all alphanumeric or underscore and that contain at least one
alphanumeric character (`isalnum` is false on the empty string, so a label of
underscores only is rejected). -/
theorem labelValid_iff (label : List Char) :
    labelValid label = true ↔
      ((∀ c ∈ label, pyCharIsAlnum c = true ∨ c = '_') ∧
       ∃ c ∈ label, pyCharIsAlnum c = true) := by
  unfold labelValid pyStrIsAlnum pyReplaceUnderscore
  rw [Bool.and_eq_true, List.all_eq_true]
  constructor
  · rintro ⟨hne, hall⟩
    constructor
    · intro c hc
      by_cases hu : c = '_'
      · exact Or.inr hu
      · exact Or.inl (hall c (List.mem_filter.mpr ⟨hc, by simpa using hu⟩))
    · cases hfil : label.filter (fun c => decide (c ≠ '_')) with
      | nil => rw [hfil] at hne; simp at hne
      | cons c cs =>
          have hc : c ∈ label.filter (fun c => decide (c ≠ '_')) := by
            rw [hfil]; exact List.mem_cons_self _ _
          exact ⟨c, (List.mem_filter.mp hc).1, hall c hc⟩
  · rintro ⟨hall, c, hcmem, hcal⟩
    have hcne : c ≠ '_' := by
      intro h
      rw [h] at hcal
      exact absurd hcal (by decide)
    constructor
    · have hc : c ∈ label.filter (fun c => decide (c ≠ '_')) :=
        List.mem_filter.mpr ⟨hcmem, by simpa using hcne⟩
      cases hfil : label.filter (fun c => decide (c ≠ '_')) with
      | nil => rw [hfil] at hc; simp at hc
      | cons d ds => rfl
    · intro d hd
      rcases hall d (List.mem_filter.mp hd).1 with h | h
      · exact h
      · exfalso
        have hne := (List.mem_filter.mp hd).2
        rw [h] at hne
        simp at hne

/-! ### Claims -/

/-- C1: the process exit status is 0 exactly when the label is valid and
`generate_3d_model` returns success; an invalid label exits 1 before any
pipeline step runs, and a `False` return from the pipeline exits 1. -/
theorem cli_exit_code_spec (env : Env) (p l : String) (dArg : Option String) :
    (exitCode (main env p l dArg).outcome = 0 ↔
       (labelValid l.data = true ∧
        (generate_3d_model env p l (parseOutputDir dArg)).result = Except.ok true))
  ∧ (labelValid l.data = false →
       (main env p l dArg).outcome = ExitOutcome.exit 1 ∧
       (main env p l dArg).trace = [])
  ∧ (labelValid l.data = true →
       (generate_3d_model env p l (parseOutputDir dArg)).result = Except.ok false →
       exitCode (main env p l dArg).outcome = 1) := by
  cases hv : labelValid l.data
  · simp [main, hv, exitCode]
  · rcases hr : (generate_3d_model env p l (parseOutputDir dArg)).result with e | b
    · simp [main, hv, hr, exitCode]
    · cases b <;> simp [main, hv, hr, exitCode]

/-- Witness for C1 in the all-success environment: valid label and a
successful pipeline yield exit status 0. -/
theorem cli_exit_code_spec_witness :
    exitCode (main envAllOk "cake.jpg" "cake" none).outcome = 0 :=
  (cli_exit_code_spec envAllOk "cake.jpg" "cake" none).1.mpr ⟨by decide, by decide⟩

/-- C2 counterexample: the label "_" consists solely of letters, digits and
underscores (namely, of one underscore), yet validation rejects it — after
removing underscores the remaining string is empty and Python's
`str.isalnum` is false on the empty string — so the CLI exits 1 without
running the pipeline. -/
theorem underscore_label_rejected :
    (['_'].all (fun c => pyCharIsAlnum c || c == '_')) = true ∧
    labelValid ['_'] = false ∧
    (main envAllOk "cake.jpg" "_" none).outcome = ExitOutcome.exit 1 ∧
    (main envAllOk "cake.jpg" "_" none).trace = [] := by
  refine ⟨by decide, by decide, by decide, by decide⟩

/-- C2 (amended): the CLI accepts a label iff every character is a letter,
digit or underscore AND at least one character is a letter or digit; a
rejected label exits 1 without invoking the pipeline, an accepted one runs
the pipeline. -/
theorem label_validation_characterization (label : List Char) (env : Env)
    (p : String) (dArg : Option String) :
    (labelValid label = true ↔
       ((∀ c ∈ label, pyCharIsAlnum c = true ∨ c = '_') ∧
        ∃ c ∈ label, pyCharIsAlnum c = true))
  ∧ (labelValid label = false →
       (main env p (String.mk label) dArg).outcome = ExitOutcome.exit 1 ∧
       (main env p (String.mk label) dArg).trace = [])
  ∧ (labelValid label = true →
       (main env p (String.mk label) dArg).trace =
         (generate_3d_model env p (String.mk label) (parseOutputDir dArg)).trace) := by
  refine ⟨labelValid_iff label, ?_, ?_⟩
  · intro h
    simp [main, show (String.mk label).data = label from rfl, h]
  · intro h
    rcases hr : (generate_3d_model env p (String.mk label) (parseOutputDir dArg)).result
        with e | b
    · simp [main, show (String.mk label).data = label from rfl, h, hr]
    · cases b <;> simp [main, show (String.mk label).data = label from rfl, h, hr]

/-- Witness for the amended C2 at the concrete label "cake". -/
theorem label_validation_characterization_witness :
    labelValid ['c', 'a', 'k', 'e'] = true :=
  (label_validation_characterization ['c', 'a', 'k', 'e'] envAllOk "cake.jpg" none).1.mpr
    ⟨by decide, by decide⟩

/-- C3 counterexample: when creating the removal directory raises (here a
`PermissionError`), the exception escapes `generate_3d_model` instead of
being logged and converted into a `False` return — the two `mkdir` calls at
lines 158–159 are outside every `try` block. -/
theorem mkdir_exception_escapes :
    (generate_3d_model envMkdirFails "cake.jpg" "cake" "outputs").result =
      Except.error ⟨"PermissionError"⟩ ∧
    (generate_3d_model envMkdirFails "cake.jpg" "cake" "outputs").result ≠
      Except.ok false := by
  refine ⟨by decide, by decide⟩

/-- C3 (amended): every step except directory creation is individually
wrapped: an exception escaping `generate_3d_model` can only come from one of
the two `mkdir` calls, and when both directory creations succeed the
function always returns a Bool (every wrapped failure becomes `False`). -/
theorem wrapped_steps_characterization (env : Env) (p l d : String) :
    (∀ e, (generate_3d_model env p l d).result = Except.error e →
       env.mkdirRemoval = Except.error e ∨ env.mkdirMesh = Except.error e)
  ∧ (env.mkdirRemoval = Except.ok () → env.mkdirMesh = Except.ok () →
       ∃ b, (generate_3d_model env p l d).result = Except.ok b) := by
  rcases runCases env p l d with
      ⟨e, hfp, hrun⟩ | ⟨pl, e, hfp, hli, hrun⟩ | ⟨pl, img, e, hfp, hli, hmr, hrun⟩ |
      ⟨pl, img, e, hfp, hli, hmr, hmm, hrun⟩ |
      ⟨pl, img, e, hfp, hli, hmr, hmm, hrb, hrun⟩ |
      ⟨pl, img, bg, e, hfp, hli, hmr, hmm, hrb, hsv, hrun⟩ |
      ⟨pl, img, bg, e, hfp, hli, hmr, hmm, hrb, hsv, hgp, hrun⟩ |
      ⟨pl, img, bg, mesh, e, hfp, hli, hmr, hmm, hrb, hsv, hgp, hex, hrun⟩ |
      ⟨pl, img, bg, mesh, hfp, hli, hmr, hmm, hrb, hsv, hgp, hex, hrun⟩
  · exact ⟨fun e2 he2 => by rw [hrun] at he2; simp at he2,
           fun _ _ => ⟨false, by rw [hrun]⟩⟩
  · exact ⟨fun e2 he2 => by rw [hrun] at he2; simp at he2,
           fun _ _ => ⟨false, by rw [hrun]⟩⟩
  · refine ⟨fun e2 he2 => ?_, fun h1 _ => ?_⟩
    · rw [hrun] at he2
      injection he2 with h
      subst h
      exact Or.inl hmr
    · rw [h1] at hmr
      simp at hmr
  · refine ⟨fun e2 he2 => ?_, fun _ h2 => ?_⟩
    · rw [hrun] at he2
      injection he2 with h
      subst h
      exact Or.inr hmm
    · rw [h2] at hmm
      simp at hmm
  · exact ⟨fun e2 he2 => by rw [hrun] at he2; simp at he2,
           fun _ _ => ⟨false, by rw [hrun]⟩⟩
  · exact ⟨fun e2 he2 => by rw [hrun] at he2; simp at he2,
           fun _ _ => ⟨false, by rw [hrun]⟩⟩
  · exact ⟨fun e2 he2 => by rw [hrun] at he2; simp at he2,
           fun _ _ => ⟨false, by rw [hrun]⟩⟩
  · exact ⟨fun e2 he2 => by rw [hrun] at he2; simp at he2,
           fun _ _ => ⟨false, by rw [hrun]⟩⟩
  · exact ⟨fun e2 he2 => by rw [hrun] at he2; simp at he2,
           fun _ _ => ⟨true, by rw [hrun]⟩⟩

/-- Witness for the amended C3: in an environment where every call succeeds
the function returns a Bool. -/
theorem wrapped_steps_characterization_witness :
    ∃ b, (generate_3d_model envAllOk "cake.jpg" "cake" "outputs").result = Except.ok b :=
  (wrapped_steps_characterization envAllOk "cake.jpg" "cake" "outputs").2 rfl rfl

/-- C4: a successful run has written exactly the two timestamped artifacts
under the configurable output directory (default "outputs"): the
background-removed image `<date>_<label>_no_bg.png` under `removal/` and the
mesh `<date>_<label>.glb` under `mesh/`, where `<date>` is the current date
as eight digits `YYYYMMDD` with no time component. -/
theorem output_artifact_names (env : Env) (p l : String) (dArg : Option String)
    (h : (generate_3d_model env p l (parseOutputDir dArg)).result = Except.ok true) :
    (generate_3d_model env p l (parseOutputDir dArg)).files =
      [ parseOutputDir dArg ++ "/" ++ "removal" ++ "/" ++
          (strftimeYmd env.today ++ "_" ++ l ++ "_no_bg.png"),
        parseOutputDir dArg ++ "/" ++ "mesh" ++ "/" ++
          (strftimeYmd env.today ++ "_" ++ l ++ ".glb") ]
  ∧ (strftimeYmd env.today).length = 8
  ∧ (∀ c ∈ (strftimeYmd env.today).data, c.isDigit = true)
  ∧ parseOutputDir none = "outputs" := by
  have hdig : ∀ c ∈ (strftimeYmd env.today).data, c.isDigit = true := by
    intro c hc
    simp [strftimeYmd, String.mk] at hc
    rcases hc with h | h | h | h | h | h | h | h <;> rw [h] <;>
      exact digitChar_isDigit _
  rcases runCases env p l (parseOutputDir dArg) with
      ⟨e, hfp, hrun⟩ | ⟨pl, e, hfp, hli, hrun⟩ | ⟨pl, img, e, hfp, hli, hmr, hrun⟩ |
      ⟨pl, img, e, hfp, hli, hmr, hmm, hrun⟩ |
      ⟨pl, img, e, hfp, hli, hmr, hmm, hrb, hrun⟩ |
      ⟨pl, img, bg, e, hfp, hli, hmr, hmm, hrb, hsv, hrun⟩ |
      ⟨pl, img, bg, e, hfp, hli, hmr, hmm, hrb, hsv, hgp, hrun⟩ |
      ⟨pl, img, bg, mesh, e, hfp, hli, hmr, hmm, hrb, hsv, hgp, hex, hrun⟩ |
      ⟨pl, img, bg, mesh, hfp, hli, hmr, hmm, hrb, hsv, hgp, hex, hrun⟩
  · rw [hrun] at h; simp at h
  · rw [hrun] at h; simp at h
  · rw [hrun] at h; simp at h
  · rw [hrun] at h; simp at h
  · rw [hrun] at h; simp at h
  · rw [hrun] at h; simp at h
  · rw [hrun] at h; simp at h
  · rw [hrun] at h; simp at h
  · refine ⟨?_, rfl, hdig, rfl⟩
    rw [hrun]
    exact rfl

/-- Witness for C4 in the all-success environment. -/
theorem output_artifact_names_witness :
    (generate_3d_model envAllOk "cake.jpg" "cake" (parseOutputDir none)).files =
      [ parseOutputDir none ++ "/" ++ "removal" ++ "/" ++
          (strftimeYmd envAllOk.today ++ "_" ++ "cake" ++ "_no_bg.png"),
        parseOutputDir none ++ "/" ++ "mesh" ++ "/" ++
          (strftimeYmd envAllOk.today ++ "_" ++ "cake" ++ ".glb") ] :=
  (output_artifact_names envAllOk "cake.jpg" "cake" none (by decide)).1

/-- C5: the steps run in the fixed source sequence — the attempted trace is
always an initial segment of the canonical order (model load, image load,
directory creation, background removal, image save, mesh generation, mesh
export), and each named step runs only after the preceding ones have
succeeded. -/
theorem steps_in_fixed_sequence (env : Env) (p l d : String) :
    (∃ n, (generate_3d_model env p l d).trace = stepOrder.take n)
  ∧ (Step.loadImg ∈ (generate_3d_model env p l d).trace →
       ∃ pl, env.fromPretrained = Except.ok pl)
  ∧ (Step.removeBg ∈ (generate_3d_model env p l d).trace →
       ∃ img, load_image env.src p = Except.ok img)
  ∧ (Step.genMesh ∈ (generate_3d_model env p l d).trace →
       ∃ img bg, load_image env.src p = Except.ok img ∧
         remove_background env.infer img = Except.ok bg ∧
         env.saveImage bg (removalPath env.today l d) = Except.ok ())
  ∧ (Step.saveMesh ∈ (generate_3d_model env p l d).trace →
       ∃ pl img bg mesh, env.fromPretrained = Except.ok pl ∧
         load_image env.src p = Except.ok img ∧
         remove_background env.infer img = Except.ok bg ∧
         env.runPipeline pl bg = Except.ok mesh) := by
  rcases runCases env p l d with
      ⟨e, hfp, hrun⟩ | ⟨pl, e, hfp, hli, hrun⟩ | ⟨pl, img, e, hfp, hli, hmr, hrun⟩ |
      ⟨pl, img, e, hfp, hli, hmr, hmm, hrun⟩ |
      ⟨pl, img, e, hfp, hli, hmr, hmm, hrb, hrun⟩ |
      ⟨pl, img, bg, e, hfp, hli, hmr, hmm, hrb, hsv, hrun⟩ |
      ⟨pl, img, bg, e, hfp, hli, hmr, hmm, hrb, hsv, hgp, hrun⟩ |
      ⟨pl, img, bg, mesh, e, hfp, hli, hmr, hmm, hrb, hsv, hgp, hex, hrun⟩ |
      ⟨pl, img, bg, mesh, hfp, hli, hmr, hmm, hrb, hsv, hgp, hex, hrun⟩ <;>
    rw [hrun]
  · exact ⟨⟨1, rfl⟩, fun hm => absurd hm (by simp), fun hm => absurd hm (by simp),
      fun hm => absurd hm (by simp), fun hm => absurd hm (by simp)⟩
  · exact ⟨⟨2, rfl⟩, fun _ => ⟨pl, hfp⟩, fun hm => absurd hm (by simp),
      fun hm => absurd hm (by simp), fun hm => absurd hm (by simp)⟩
  · exact ⟨⟨3, rfl⟩, fun _ => ⟨pl, hfp⟩, fun hm => absurd hm (by simp),
      fun hm => absurd hm (by simp), fun hm => absurd hm (by simp)⟩
  · exact ⟨⟨4, rfl⟩, fun _ => ⟨pl, hfp⟩, fun hm => absurd hm (by simp),
      fun hm => absurd hm (by simp), fun hm => absurd hm (by simp)⟩
  · exact ⟨⟨5, rfl⟩, fun _ => ⟨pl, hfp⟩, fun _ => ⟨img, hli⟩,
      fun hm => absurd hm (by simp), fun hm => absurd hm (by simp)⟩
  · exact ⟨⟨6, rfl⟩, fun _ => ⟨pl, hfp⟩, fun _ => ⟨img, hli⟩,
      fun hm => absurd hm (by simp), fun hm => absurd hm (by simp)⟩
  · exact ⟨⟨7, rfl⟩, fun _ => ⟨pl, hfp⟩, fun _ => ⟨img, hli⟩,
      fun _ => ⟨img, bg, hli, hrb, hsv⟩, fun hm => absurd hm (by simp)⟩
  · exact ⟨⟨8, rfl⟩, fun _ => ⟨pl, hfp⟩, fun _ => ⟨img, hli⟩,
      fun _ => ⟨img, bg, hli, hrb, hsv⟩, fun _ => ⟨pl, img, bg, mesh, hfp, hli, hrb, hgp⟩⟩
  · exact ⟨⟨8, rfl⟩, fun _ => ⟨pl, hfp⟩, fun _ => ⟨img, hli⟩,
      fun _ => ⟨img, bg, hli, hrb, hsv⟩, fun _ => ⟨pl, img, bg, mesh, hfp, hli, hrb, hgp⟩⟩

/-- Witness for C5 in the all-success environment. -/
theorem steps_in_fixed_sequence_witness :
    ∃ n, (generate_3d_model envAllOk "cake.jpg" "cake" "outputs").trace = stepOrder.take n :=
  (steps_in_fixed_sequence envAllOk "cake.jpg" "cake" "outputs").1

/-- C6: no retries and no rollback — every step is attempted at most once,
the attempted steps always form an initial segment of the canonical order
(so nothing runs after the failing step), and once mesh generation has been
attempted the background-removed PNG has been written and remains among the
written files even when mesh generation or mesh export fails. -/
theorem no_retry_no_rollback (env : Env) (p l d : String) :
    (generate_3d_model env p l d).trace.Nodup
  ∧ ((generate_3d_model env p l d).result = Except.ok false →
       ∃ n, (generate_3d_model env p l d).trace = stepOrder.take n)
  ∧ (Step.genMesh ∈ (generate_3d_model env p l d).trace →
       removalPath env.today l d ∈ (generate_3d_model env p l d).files) := by
  rcases runCases env p l d with
      ⟨e, hfp, hrun⟩ | ⟨pl, e, hfp, hli, hrun⟩ | ⟨pl, img, e, hfp, hli, hmr, hrun⟩ |
      ⟨pl, img, e, hfp, hli, hmr, hmm, hrun⟩ |
      ⟨pl, img, e, hfp, hli, hmr, hmm, hrb, hrun⟩ |
      ⟨pl, img, bg, e, hfp, hli, hmr, hmm, hrb, hsv, hrun⟩ |
      ⟨pl, img, bg, e, hfp, hli, hmr, hmm, hrb, hsv, hgp, hrun⟩ |
      ⟨pl, img, bg, mesh, e, hfp, hli, hmr, hmm, hrb, hsv, hgp, hex, hrun⟩ |
      ⟨pl, img, bg, mesh, hfp, hli, hmr, hmm, hrb, hsv, hgp, hex, hrun⟩ <;>
    rw [hrun]
  · exact ⟨by simp, fun _ => ⟨1, rfl⟩, fun hm => absurd hm (by simp)⟩
  · exact ⟨by simp, fun _ => ⟨2, rfl⟩, fun hm => absurd hm (by simp)⟩
  · exact ⟨by simp, fun _ => ⟨3, rfl⟩, fun hm => absurd hm (by simp)⟩
  · exact ⟨by simp, fun _ => ⟨4, rfl⟩, fun hm => absurd hm (by simp)⟩
  · exact ⟨by simp, fun _ => ⟨5, rfl⟩, fun hm => absurd hm (by simp)⟩
  · exact ⟨by simp, fun _ => ⟨6, rfl⟩, fun hm => absurd hm (by simp)⟩
  · exact ⟨by simp, fun _ => ⟨7, rfl⟩, fun _ => by simp⟩
  · exact ⟨show stepOrder.Nodup by decide, fun _ => ⟨8, rfl⟩, fun _ => by simp⟩
  · exact ⟨show stepOrder.Nodup by decide, fun _ => ⟨8, rfl⟩, fun _ => by simp⟩

/-- Witness for C6 in an environment where mesh export fails after the PNG
was written: the PNG is still among the written files. -/
theorem no_retry_no_rollback_witness :
    removalPath envExportFails.today "cake" "outputs" ∈
      (generate_3d_model envExportFails "cake.jpg" "cake" "outputs").files :=
  (no_retry_no_rollback envExportFails "cake.jpg" "cake" "outputs").2.2 (by decide)

/-- C7: whenever generate_3d_model returns True, both artifacts have been
written: the background-removed PNG at
`<output_dir>/removal/<date>_<label>_no_bg.png` and the mesh at
`<output_dir>/mesh/<date>_<label>.glb`. -/
theorem success_writes_expected_files (env : Env) (p l d : String)
    (h : (generate_3d_model env p l d).result = Except.ok true) :
    (generate_3d_model env p l d).files =
      [removalPath env.today l d, meshPath env.today l d]
  ∧ removalPath env.today l d ∈ (generate_3d_model env p l d).files
  ∧ meshPath env.today l d ∈ (generate_3d_model env p l d).files := by
  rcases runCases env p l d with
      ⟨e, hfp, hrun⟩ | ⟨pl, e, hfp, hli, hrun⟩ | ⟨pl, img, e, hfp, hli, hmr, hrun⟩ |
      ⟨pl, img, e, hfp, hli, hmr, hmm, hrun⟩ |
      ⟨pl, img, e, hfp, hli, hmr, hmm, hrb, hrun⟩ |
      ⟨pl, img, bg, e, hfp, hli, hmr, hmm, hrb, hsv, hrun⟩ |
      ⟨pl, img, bg, e, hfp, hli, hmr, hmm, hrb, hsv, hgp, hrun⟩ |
      ⟨pl, img, bg, mesh, e, hfp, hli, hmr, hmm, hrb, hsv, hgp, hex, hrun⟩ |
      ⟨pl, img, bg, mesh, hfp, hli, hmr, hmm, hrb, hsv, hgp, hex, hrun⟩
  · rw [hrun] at h; simp at h
  · rw [hrun] at h; simp at h
  · rw [hrun] at h; simp at h
  · rw [hrun] at h; simp at h
  · rw [hrun] at h; simp at h
  · rw [hrun] at h; simp at h
  · rw [hrun] at h; simp at h
  · rw [hrun] at h; simp at h
  · refine ⟨by rw [hrun], ?_, ?_⟩ <;> rw [hrun] <;> simp

/-- Witness for C7 in the all-success environment. -/
theorem success_writes_expected_files_witness :
    (generate_3d_model envAllOk "cake.jpg" "cake" "outputs").files =
      [removalPath envAllOk.today "cake" "outputs",
       meshPath envAllOk.today "cake" "outputs"] :=
  (success_writes_expected_files envAllOk "cake.jpg" "cake" "outputs" (by decide)).1

/-- C8: on an RGB input (the mode the caller guarantees via load_image and
the function's documented contract), remove_background succeeds whenever the
segmentation prediction does, and returns an RGBA image whose width and
height equal those of the input; the predicted mask is resized back to the
input's size before being applied. -/
theorem remove_background_rgba (infer : PILImage → Except PyErr PILImage)
    (image pred : PILImage) (hmode : image.mode = "RGB")
    (hinf : infer image = Except.ok pred) :
    ∃ out, remove_background infer image = Except.ok out ∧
      out.mode = "RGBA" ∧ out.width = image.width ∧ out.height = image.height ∧
      (pilResize pred image.width image.height).width = image.width ∧
      (pilResize pred image.width image.height).height = image.height := by
  refine ⟨{ image with mode := putalphaMode image.mode }, ?_, ?_, rfl, rfl, rfl, rfl⟩
  · unfold remove_background
    rw [hinf]
    unfold putalpha
    simp [pilResize]
  · show putalphaMode image.mode = "RGBA"
    rw [hmode]
    decide

/-- Witness for C8 at a concrete image and prediction. -/
theorem remove_background_rgba_witness :
    ∃ out, remove_background (fun _ => Except.ok ⟨7, 9, "L"⟩) ⟨4, 3, "RGB"⟩ =
        Except.ok out ∧
      out.mode = "RGBA" ∧ out.width = 4 ∧ out.height = 3 ∧
      (pilResize ⟨7, 9, "L"⟩ 4 3).width = 4 ∧ (pilResize ⟨7, 9, "L"⟩ 4 3).height = 3 :=
  remove_background_rgba (fun _ => Except.ok ⟨7, 9, "L"⟩) ⟨4, 3, "RGB"⟩ ⟨7, 9, "L"⟩
    rfl rfl

/-- C9: remove_background mutates its argument in place — the heap-passing
rendering returns the very reference it was given, the image at that
reference now carries the applied alpha channel (so every alias observes
the change), and no other reference is affected. -/
theorem remove_background_in_place (infer : PILImage → Except PyErr PILImage)
    (heap : Nat → PILImage) (r : Nat) (out : PILImage)
    (h : remove_background infer (heap r) = Except.ok out) :
    ∃ res, remove_background_heap infer heap r = Except.ok res ∧
      res.1 = r ∧ res.2 r = out ∧ ∀ x, x ≠ r → res.2 x = heap x := by
  unfold remove_background_heap
  rw [h]
  exact ⟨(r, fun x => if x = r then out else heap x), rfl, rfl, by simp,
         fun x hx => by simp [hx]⟩

/-- Witness for C9 at a concrete heap and reference. -/
theorem remove_background_in_place_witness :
    ∃ res, remove_background_heap (fun _ => Except.ok ⟨7, 9, "L"⟩)
        (fun _ => ⟨4, 3, "RGB"⟩) 0 = Except.ok res ∧
      res.1 = 0 ∧ res.2 0 = ⟨4, 3, "RGBA"⟩ ∧
      ∀ x, x ≠ 0 → res.2 x = (fun _ => (⟨4, 3, "RGB"⟩ : PILImage)) x :=
  remove_background_in_place (fun _ => Except.ok ⟨7, 9, "L"⟩)
    (fun _ => ⟨4, 3, "RGB"⟩) 0 ⟨4, 3, "RGBA"⟩ (by decide)

/-- C10: every image load_image returns is in RGB mode, for both URL and
local-path inputs: after EXIF transposition any non-RGB image is converted
to RGB before being returned. -/
theorem load_image_returns_rgb (src : ImageSource) (p : String) (img : PILImage)
    (h : load_image src p = Except.ok img) : img.mode = "RGB" := by
  unfold load_image at h
  rcases hfetch : (if pyStartsWith p "http://" || pyStartsWith p "https://" then
      src.httpGet p else src.fileOpen p) with e | opened
  · rw [hfetch] at h
    simp at h
  · rw [hfetch] at h
    have h2 : (if (src.exifTranspose opened).mode ≠ "RGB" then
        pilConvertRGB (src.exifTranspose opened) else src.exifTranspose opened) = img := by
      simpa using h
    by_cases hm : (src.exifTranspose opened).mode = "RGB"
    · rw [if_neg (not_not_intro hm)] at h2
      rw [← h2]
      exact hm
    · rw [if_pos hm] at h2
      rw [← h2]
      rfl

/-- Witness for C10: a URL input whose decoded image is RGBA is returned
converted to RGB. -/
theorem load_image_returns_rgb_witness : (PILImage.mk 2 2 "RGB").mode = "RGB" :=
  load_image_returns_rgb
    { httpGet := fun _ => Except.ok ⟨2, 2, "RGBA"⟩,
      fileOpen := fun _ => Except.ok ⟨2, 2, "RGBA"⟩,
      exifTranspose := fun i => i }
    "https://example.com/cake.png" ⟨2, 2, "RGB"⟩ (by decide)

end ParticleMorph
